import Mathlib

/-!
Verification of the reconciliation logic of the `f5_bigip` Ansible modules.

Each namespace shallowly embeds one Python module from
`src/ansible_collections/f5networks/f5_bigip/plugins/modules/`:

* `BigipCommand`   — `bigip_command.py` (command normalisation, pipe
  splitting/merging, tmsh quoting, change detection from responses);
* `Vcmp`           — `bigip_vcmp_guest.py` (parameter properties, the
  `Difference` comparison and `_update_changed_options`);
* `Bigiq`          — `bigiq_device_discovery.py` (parameter properties,
  the immutable `access_group_name` rule and `ModuleManager.update`);
* `Ucs`            — `bigip_ucs_fetch.py` (the `timeout` property, the
  `async_wait` polling loop, and `exec_module` / `present`).

Python strings are embedded as `List Char` where character-level
operations (strip, split, regex search) matter, and as `String` where
only equality and ordering are used.  Python `None` becomes `none`,
raised exceptions become `Except.error`.
-/

instance {ε α : Type} [DecidableEq ε] [DecidableEq α] : DecidableEq (Except ε α) :=
  fun a b =>
    match a, b with
    | Except.error e1, Except.error e2 =>
      if h : e1 = e2 then isTrue (by rw [h])
      else isFalse (by intro hc; cases hc; exact h rfl)
    | Except.ok x, Except.ok y =>
      if h : x = y then isTrue (by rw [h])
      else isFalse (by intro hc; cases hc; exact h rfl)
    | Except.error _, Except.ok _ => isFalse (by intro hc; cases hc)
    | Except.ok _, Except.error _ => isFalse (by intro hc; cases hc)

namespace BigipCommand

/-- Characters Python's `str.strip()` removes (the ASCII whitespace
subset; no input in this module carries non-ASCII whitespace). -/
def isPySpace (c : Char) : Bool :=
  c = ' ' || c = '\t' || c = '\n' || c = '\r' || c = Char.ofNat 11 || c = Char.ofNat 12

/-- Python `s.strip()`: drop leading and trailing whitespace. -/
def pystrip (l : List Char) : List Char :=
  ((l.dropWhile isPySpace).reverse.dropWhile isPySpace).reverse

/-- One step of `BaseManager.normalize_commands` (bigip_command.py 436-446):
strip the command, and when `command[0:5] == 'tmsh '` drop `command[4:]`'s
leading prefix and strip again (the slice starts at index 4, keeping the
space, which the second strip removes). -/
def norm1 (c : List Char) : List Char :=
  let s := pystrip c
  if s.take 5 = "tmsh ".toList then pystrip (s.drop 4) else s

/-- `BaseManager.normalize_commands`: `None` on a falsy (empty) input,
otherwise each command normalised by `norm1`. -/
def normalize_commands (raw : List (List Char)) : Option (List (List Char)) :=
  if raw.isEmpty then none else some (raw.map norm1)

/-- Feeding an `Option` result back into `normalize_commands`
(`None` is falsy in Python, so `normalize_commands(None)` is `None`). -/
def normalize_commands_opt (raw : Option (List (List Char))) : Option (List (List Char)) :=
  match raw with
  | none => none
  | some l => normalize_commands l

/-- `Parameters.chdir` (bigip_command.py 352-358): qualify the directory
with a leading `/` when it is not already absolute. -/
def chdir (v : Option (List Char)) : Option (List Char) :=
  match v with
  | none => none
  | some s => some (if s.head? = some '/' then s else '/' :: s)

/-- Quoting state of the `shlex` tokenizer. -/
inductive QuoteState where
  | no
  | single
  | double
deriving DecidableEq, Repr

def squote : Char := Char.ofNat 39
def dquote : Char := Char.ofNat 34
def bslash : Char := Char.ofNat 92

/-- Token counter for Python's `shlex` in the configuration used by
`Parameters.cmd_has_pipe` (bigip_command.py 260-264): posix mode,
`whitespace = '|'`, `whitespace_split = True`.  `'|'` outside quotes
delimits tokens; single and double quotes group; a backslash escapes the
next character outside single quotes.  (`shlex` raises on an unclosed
quote; the commands the claims quantify over are quote-balanced, and the
model simply closes the last token.)  Arguments: input, quote state,
pending-escape flag, inside-token flag, tokens finished so far. -/
def shlexPipeTokens : List Char → QuoteState → Bool → Bool → Nat → Nat
  | [], _, _, inTok, n => if inTok then n + 1 else n
  | c :: rest, q, esc, _, n =>
    if esc then shlexPipeTokens rest q false true n
    else
      match q with
      | QuoteState.single =>
        if c = squote then shlexPipeTokens rest QuoteState.no false true n
        else shlexPipeTokens rest QuoteState.single false true n
      | QuoteState.double =>
        if c = dquote then shlexPipeTokens rest QuoteState.no false true n
        else if c = bslash then shlexPipeTokens rest QuoteState.double true true n
        else shlexPipeTokens rest QuoteState.double false true n
      | QuoteState.no =>
        if c = '|' then shlexPipeTokens rest QuoteState.no false false (n + 1)
        else if c = bslash then shlexPipeTokens rest QuoteState.no true true n
        else if c = squote then shlexPipeTokens rest QuoteState.single false true n
        else if c = dquote then shlexPipeTokens rest QuoteState.double false true n
        else shlexPipeTokens rest QuoteState.no false true n

/-- `Parameters.cmd_has_pipe`: more than one `shlex` token when splitting
on `'|'`. -/
def cmd_has_pipe (l : List Char) : Bool :=
  decide (1 < shlexPipeTokens l QuoteState.no false false 0)

/-- The `{'command': ..., 'pipeline': ...}` dict built by
`convert_commands_cli`. -/
structure CmdDict where
  command : List Char
  pipeline : List Char
deriving DecidableEq, Repr

/-- One element of `Parameters.convert_commands_cli` (bigip_command.py
284-299): when the command has a pipe, `command.split('|', 1)` gives the
part before the first `'|'` and the part after it (whitespace around the
`'|'` stays with the parts); otherwise the pipeline is empty. -/
def convert_one_cli (c : List Char) : CmdDict :=
  if cmd_has_pipe c then
    { command := c.takeWhile (fun ch => ch ≠ '|')
      pipeline := (c.dropWhile (fun ch => ch ≠ '|')).tail }
  else
    { command := c, pipeline := [] }

/-- `Parameters.convert_commands_cli` over a command list. -/
def convert_commands_cli (cs : List (List Char)) : List CmdDict :=
  cs.map convert_one_cli

/-- `Parameters.merge_command_dict_cli` (bigip_command.py 307-309):
`'{0} | {1}'.format(command, pipeline).strip()` when the pipeline is
non-empty, otherwise the command unchanged. -/
def merge_command_dict_cli (d : CmdDict) : List Char :=
  if d.pipeline ≠ [] then pystrip (d.command ++ " | ".toList ++ d.pipeline)
  else d.command

/-- Python `command.count('"')`. -/
def countDQ (l : List Char) : Nat := l.countP (fun c => c = dquote)

/-- The substitution `re.sub(r'([$"])', r'\\\\\\\1', command)` in
`addon_tmsh`: each `$` or `"` is replaced by three backslashes and the
character itself. -/
def escapeTmsh (l : List Char) : List Char :=
  l.flatMap (fun c => if c = '$' || c = dquote then [bslash, bslash, bslash, c] else [c])

/-- `Parameters.addon_tmsh` (bigip_command.py 369-374): fail on an odd
number of double quotes, otherwise escape `$` and `"` and wrap the
command in `tmsh -c \"...\"`. -/
def addon_tmsh (cmd : List Char) : Except String (List Char) :=
  if countDQ cmd % 2 ≠ 0 then Except.error "Double quotes are unbalanced"
  else Except.ok ("tmsh -c ".toList ++ [bslash, dquote] ++ escapeTmsh cmd ++ [bslash, dquote])

/-- `Parameters.addon_tmsh_cli` (bigip_command.py 376-379): fail on an
odd number of double quotes, otherwise wrap in `tmsh -c "..."`. -/
def addon_tmsh_cli (cmd : List Char) : Except String (List Char) :=
  if countDQ cmd % 2 ≠ 0 then Except.error "Double quotes are unbalanced"
  else Except.ok ("tmsh -c ".toList ++ [dquote] ++ cmd ++ [dquote])

def isError {ε α : Type} (e : Except ε α) : Bool :=
  match e with
  | Except.error _ => true
  | Except.ok _ => false

/-- Python `re.search(A + '.*' + B, s)` for literal fragments `A`, `B`:
some occurrence of `A` is followed (at or after its end) by an occurrence
of `B`, with no newline in between (`.` does not match a newline). -/
def searchDotStar (a b s : List Char) : Bool :=
  (List.range (s.length + 1)).any (fun i =>
    a.isPrefixOf (s.drop i) &&
      (List.range (s.length + 1)).any (fun j =>
        decide (i + a.length ≤ j) && b.isPrefixOf (s.drop j) &&
          ((s.drop (i + a.length)).take (j - (i + a.length))).all (fun c => c ≠ '\n')))

/-- Python `sub in s` (substring containment), used to state C2. -/
def pyContains (sub s : List Char) : Bool :=
  (List.range (s.length + 1)).any (fun i => sub.isPrefixOf (s.drop i))

/-- `NoChangeReporter.find_no_change` (bigip_command.py 208-234): true
when some response matches one of the two `stdout_re` patterns
`The requested.*already exists` or
`Data Input Error: shared.*already exists`. -/
def find_no_change (responses : List (List Char)) : Bool :=
  responses.any (fun r =>
    searchDotStar "The requested".toList "already exists".toList r ||
      searchDotStar "Data Input Error: shared".toList "already exists".toList r)

/-- `BaseManager.changed_command_prefixes`. -/
def changedCommandStarts : List (List Char) :=
  ["modify".toList, "create".toList, "delete".toList]

/-- `BaseManager.determine_change` (bigip_command.py 511-517): false when
a no-change pattern matches some response; otherwise true iff some
normalized command starts with `modify`, `create` or `delete`. -/
def determine_change (responses commands : List (List Char)) : Bool :=
  if find_no_change responses then false
  else commands.any (fun x => changedCommandStarts.any (fun p => p.isPrefixOf x))

/-! Helper lemmas on `pystrip`. -/

theorem head?_dropWhile_not (p : Char → Bool) (l : List Char) :
    ∀ a, (l.dropWhile p).head? = some a → p a = false := by
  induction l with
  | nil => intro a h; simp [List.dropWhile] at h
  | cons hd tl ih =>
    intro a h
    by_cases hp : p hd
    · rw [List.dropWhile_cons_of_pos hp] at h
      exact ih a h
    · rw [List.dropWhile_cons_of_neg hp] at h
      simp only [List.head?_cons, Option.some.injEq] at h
      rw [← h]
      exact Bool.eq_false_iff.mpr hp

theorem dropWhile_eq_self_of_head? (p : Char → Bool) (l : List Char)
    (h : ∀ a, l.head? = some a → p a = false) : l.dropWhile p = l := by
  cases l with
  | nil => simp
  | cons hd tl =>
    rw [List.dropWhile_cons_of_neg]
    have := h hd rfl
    simp [this]

theorem getLast?_dropWhile (p : Char → Bool) (l : List Char)
    (h : l.dropWhile p ≠ []) : (l.dropWhile p).getLast? = l.getLast? := by
  obtain ⟨t, ht⟩ := List.dropWhile_suffix (l := l) p
  conv_rhs => rw [← ht]
  rw [List.getLast?_append_of_ne_nil t h]

theorem pystrip_idem (l : List Char) : pystrip (pystrip l) = pystrip l := by
  unfold pystrip
  set p := isPySpace with hp
  set m := l.dropWhile p with hm
  set r := m.reverse.dropWhile p with hr
  have hA : r.reverse.dropWhile p = r.reverse := by
    by_cases hne : r = []
    · rw [hne]; simp
    · apply dropWhile_eq_self_of_head?
      intro a ha
      have h1 : r.reverse.head? = r.getLast? := List.head?_reverse r
      have h2 : r.getLast? = m.reverse.getLast? := by
        rw [hr]; exact getLast?_dropWhile p m.reverse (hr ▸ hne)
      have h3 : m.reverse.getLast? = m.head? := List.getLast?_reverse m
      have hma : m.head? = some a := by rw [← h3, ← h2, ← h1, ha]
      apply head?_dropWhile_not p l a
      have hmd : m.dropWhile p = m := by rw [hm, List.dropWhile_idempotent]
      rw [← hm, ← hmd, hmd]
      exact hma
  rw [hA, List.reverse_reverse, hr, List.dropWhile_idempotent]

theorem norm1_pystrip_fixed (c : List Char) : pystrip (norm1 c) = norm1 c := by
  unfold norm1
  by_cases h : (pystrip c).take 5 = "tmsh ".toList
  · simp only [h, if_true, pystrip_idem]
  · simp only [if_neg h, pystrip_idem]

theorem norm1_idem_of_no_tmsh (c : List Char)
    (h : (norm1 c).take 5 ≠ "tmsh ".toList) : norm1 (norm1 c) = norm1 c := by
  have hfix : pystrip (norm1 c) = norm1 c := norm1_pystrip_fixed c
  conv_lhs => rw [norm1]
  simp only [hfix, if_neg h]

/-- C2 counterexample: the response `"pool already exists"` contains the
substring `"already exists"`, yet `determine_change` returns `true` for
the dispatched command `"create ltm pool foo"` — the `stdout_re`
patterns additionally require the prefixes `"The requested"` or
`"Data Input Error: shared"`, so a bare `"already exists"` does not
force `changed = false` as the claim states. -/
theorem c2_counterexample :
    pyContains "already exists".toList "pool already exists".toList = true ∧
      determine_change ["pool already exists".toList] ["create ltm pool foo".toList] = true := by
  constructor
  · decide
  · decide

/-- C2 (amended): if any response matches one of the two `stdout_re`
patterns (`The requested.*already exists` or
`Data Input Error: shared.*already exists`) then `determine_change`
returns `false`, even when a dispatched normalized command starts with a
change-class prefix (`modify`, `create`, `delete`). -/
theorem c2_no_change_patterns_force_unchanged (rs cs : List (List Char))
    (h : find_no_change rs = true) : determine_change rs cs = false := by
  simp [determine_change, h]

/-- C2 witness: a response matching `The requested.*already exists`
forces `changed = false` despite a `create` command. -/
theorem c2_witness :
    find_no_change ["The requested object already exists".toList] = true ∧
      determine_change ["The requested object already exists".toList]
        ["create ltm pool foo".toList] = false :=
  ⟨by decide, c2_no_change_patterns_force_unchanged _ _ (by decide)⟩

/-- C3 counterexample: `split('|', 1)` keeps the whitespace around the
pipe, so the primary command for `show sys version | grep BIG-IP` is
`"show sys version "` (with a trailing space), not `"show sys version"`,
and the re-joined command carries doubled spaces around the `|`, so it
differs from the original string. -/
theorem c3_counterexample :
    (convert_one_cli "show sys version | grep BIG-IP".toList).command
        ≠ "show sys version".toList ∧
      merge_command_dict_cli (convert_one_cli "show sys version | grep BIG-IP".toList)
        ≠ "show sys version | grep BIG-IP".toList := by
  constructor
  · decide
  · decide

/-- C3 (amended): a command without a pipe round-trips unchanged through
`convert_commands_cli` and `merge_command_dict_cli`; the input
`show sys version | grep BIG-IP` splits into primary
`"show sys version "` and pipeline `" grep BIG-IP"` (the whitespace
around the `|` stays with the parts), and re-joining yields
`"show sys version  |  grep BIG-IP"` with doubled spaces around the
pipe. -/
theorem c3_convert_merge_cli :
    (∀ c, cmd_has_pipe c = false → merge_command_dict_cli (convert_one_cli c) = c) ∧
      convert_commands_cli ["show sys version | grep BIG-IP".toList]
        = [⟨"show sys version ".toList, " grep BIG-IP".toList⟩] ∧
      merge_command_dict_cli ⟨"show sys version ".toList, " grep BIG-IP".toList⟩
        = "show sys version  |  grep BIG-IP".toList := by
  refine ⟨?_, by decide, by decide⟩
  intro c h
  simp [convert_one_cli, h, merge_command_dict_cli]

/-- C3 witness: round-trip of a pipe-free command. -/
theorem c3_witness :
    merge_command_dict_cli (convert_one_cli "show sys version".toList)
      = "show sys version".toList :=
  c3_convert_merge_cli.1 _ (by decide)

/-- C6: in both transport paths, command preparation fails (before the
command is sent) exactly when the prepared command contains an odd
number of double-quote characters: `addon_tmsh` and `addon_tmsh_cli`
raise iff `command.count('"')` is odd. -/
theorem c6_unbalanced_quotes_fail_fast (cmd : List Char) :
    (isError (addon_tmsh cmd) = true ↔ countDQ cmd % 2 = 1) ∧
      (isError (addon_tmsh_cli cmd) = true ↔ countDQ cmd % 2 = 1) := by
  refine ⟨?_, ?_⟩ <;> by_cases h : countDQ cmd % 2 = 0 <;>
    simp [addon_tmsh, addon_tmsh_cli, h, isError] <;> omega

/-- C8 counterexample: `normalize_commands` is not idempotent —
normalizing `["tmsh tmsh show"]` once gives `["tmsh show"]`, and
normalizing the result again gives `["show"]` (each pass strips one
`tmsh ` prefix). -/
theorem c8_counterexample :
    normalize_commands_opt (normalize_commands ["tmsh tmsh show".toList])
      ≠ normalize_commands ["tmsh tmsh show".toList] := by
  decide

/-- C8 (amended): `chdir` qualification is idempotent, and
`normalize_commands` applied twice equals a single application for every
command list whose once-normalized commands do not again begin with
`tmsh ` (stacked `tmsh` prefixes are stripped one per pass). -/
theorem c8_normalization_idempotent :
    (∀ v, chdir (chdir v) = chdir v) ∧
      (∀ raw, (∀ y ∈ (normalize_commands raw).getD [], y.take 5 ≠ "tmsh ".toList) →
        normalize_commands_opt (normalize_commands raw) = normalize_commands raw) := by
  constructor
  · intro v
    cases v with
    | none => rfl
    | some s =>
      simp only [chdir]
      by_cases h : s.head? = some '/'
      · rw [if_pos h, if_pos h]
      · rw [if_neg h]
        simp
  · intro raw h
    unfold normalize_commands at *
    by_cases he : raw.isEmpty
    · simp only [if_pos he, normalize_commands_opt]
    · simp only [if_neg he, normalize_commands_opt, Option.getD_some] at *
      unfold normalize_commands
      have hne : (raw.map norm1).isEmpty = false := by
        simp only [List.isEmpty_iff] at *
        simp [he]
      rw [hne]
      simp only [Bool.false_eq_true, if_false, Option.some.injEq, List.map_map]
      apply List.map_congr_left
      intro a ha
      exact norm1_idem_of_no_tmsh a (h (norm1 a) (List.mem_map_of_mem norm1 ha))

/-- C8 witness: a single `tmsh `-prefixed command normalizes idempotently,
and `chdir` is idempotent on a relative directory. -/
theorem c8_witness :
    chdir (chdir (some "Common".toList)) = chdir (some "Common".toList) ∧
      normalize_commands_opt (normalize_commands ["tmsh show version".toList])
        = normalize_commands ["tmsh show version".toList] :=
  ⟨c8_normalization_idempotent.1 _, c8_normalization_idempotent.2 _ (by decide)⟩

end BigipCommand

namespace Vcmp

/-- A parameter value as compared by `Difference` in bigip_vcmp_guest.py:
strings, integers, and lists of either. -/
inductive PVal where
  | str (s : String)
  | int (n : Int)
  | strList (l : List String)
  | intList (l : List Int)
deriving DecidableEq, Repr

/-- The updatable fields of `Parameters.updatables`
(bigip_vcmp_guest.py 281-293). -/
inductive Field where
  | vlans
  | mgmt_network
  | mgmt_address
  | initial_image
  | initial_hotfix
  | mgmt_route
  | state
  | cores_per_slot
  | number_of_slots
  | min_number_of_slots
  | allowed_slots
deriving DecidableEq, Repr

def updatables : List Field :=
  [Field.vlans, Field.mgmt_network, Field.mgmt_address, Field.initial_image,
   Field.initial_hotfix, Field.mgmt_route, Field.state, Field.cores_per_slot,
   Field.number_of_slots, Field.min_number_of_slots, Field.allowed_slots]

/-- The fields for which `Difference` defines a per-field override
property (`mgmt_address`, `allowed_slots`); all others fall back to
`Difference.__default`. -/
def hasOverride (k : Field) : Bool :=
  k = Field.mgmt_address || k = Field.allowed_slots

/-- The raw `_values` of a `ModuleParameters` object (user-declared
desired state); `None` becomes `none`. -/
structure MPValues where
  partition : String
  vlans : Option (List String)
  mgmt_network : Option String
  mgmt_address : Option String
  initial_image : Option String
  initial_hotfix : Option String
  mgmt_route : Option String
  state : Option String
  cores_per_slot : Option Int
  number_of_slots : Option Int
  min_number_of_slots : Option Int
  allowed_slots : Option (List Int)
deriving DecidableEq, Repr

/-- The raw `_values` of an `ApiParameters` object (observed state).
`ApiParameters` adds no property overrides, so getattr returns these
values unchanged (after the `api_map` wire-name translation). -/
structure ApiValues where
  vlans : Option (List String)
  mgmt_network : Option String
  mgmt_address : Option String
  initial_image : Option String
  initial_hotfix : Option String
  mgmt_route : Option String
  state : Option String
  cores_per_slot : Option Int
  number_of_slots : Option Int
  min_number_of_slots : Option Int
  allowed_slots : Option (List Int)
deriving DecidableEq, Repr

/-- External collaborators of the property layer: `ipw` models the
Python stdlib `str(ip_interface(x).with_prefixlen)` (`none` = the
`ValueError` branch), `validIp` models `is_valid_ip` from the
collection's `module_utils` (not under `src/`), and
`imageExists` / `hotfixExists` model the read-only device queries
`initial_image_exists` / `initial_hotfix_exists`. -/
structure Env where
  ipw : String → Option String
  validIp : String → Bool
  imageExists : String → Except String Bool
  hotfixExists : String → Except String Bool

/-- Modelled from the spec: `fq_name` from the repository's
`module_utils/common.py` (not included under `src/`); a
partition-qualified name is normalized to an absolute path form
(prefixed with `/`) if not already absolute. -/
def fq_name (partition name : String) : String :=
  if name.startsWith "/" then name else "/" ++ partition ++ "/" ++ name

def sortStr (l : List String) : List String :=
  l.mergeSort (fun a b => decide (a ≤ b))

def sortInt (l : List Int) : List Int :=
  l.mergeSort (fun a b => decide (a ≤ b))

/-- `ModuleParameters.vlans` (bigip_vcmp_guest.py 351-357): fully
qualify each VLAN against the partition, then sort. -/
def mp_vlans (w : MPValues) : Option (List String) :=
  w.vlans.map (fun v => sortStr (v.map (fq_name w.partition)))

/-- `ModuleParameters.allowed_slots` (bigip_vcmp_guest.py 401-407):
sort the list in place. -/
def mp_allowed_slots (w : MPValues) : Option (List Int) :=
  w.allowed_slots.map sortInt

/-- `ModuleParameters.state` (bigip_vcmp_guest.py 343-349). -/
def mp_state (w : MPValues) : Option String :=
  if w.state = some "present" then some "deployed"
  else if w.state = some "configured" ∨ w.state = some "disabled" then some "configured"
  else w.state

/-- `ModuleParameters.mgmt_address` (bigip_vcmp_guest.py 314-324). -/
def mp_mgmt_address (env : Env) (w : MPValues) : Except String (Option String) :=
  match w.mgmt_address with
  | none => Except.ok none
  | some a =>
    match env.ipw a with
    | some r => Except.ok (some r)
    | none => Except.error "The specified 'mgmt_address' is not a valid IP address."

/-- `ModuleParameters.mgmt_route` (bigip_vcmp_guest.py 301-312). -/
def mp_mgmt_route (env : Env) (w : MPValues) : Except String (Option String) :=
  match w.mgmt_route with
  | none => Except.ok none
  | some r =>
    if r = "none" then Except.ok (some "none")
    else if env.validIp r then Except.ok (some r)
    else Except.error "The specified 'mgmt_route' is not a valid IP address."

/-- `ModuleParameters.initial_image` (bigip_vcmp_guest.py 359-367). -/
def mp_initial_image (env : Env) (w : MPValues) : Except String (Option String) :=
  match w.initial_image with
  | none => Except.ok none
  | some img =>
    match env.imageExists img with
    | Except.error e => Except.error e
    | Except.ok true => Except.ok (some img)
    | Except.ok false =>
      Except.error "The specified 'initial_image' does not exist on the remote device."

/-- `ModuleParameters.initial_hotfix` (bigip_vcmp_guest.py 369-377). -/
def mp_initial_hotfix (env : Env) (w : MPValues) : Except String (Option String) :=
  match w.initial_hotfix with
  | none => Except.ok none
  | some hf =>
    match env.hotfixExists hf with
    | Except.error e => Except.error e
    | Except.ok true => Except.ok (some hf)
    | Except.ok false =>
      Except.error "The specified 'initial_hotfix' does not exist on the remote device."

/-- `getattr(self.want, param)` for the desired-state side: property
values where `ModuleParameters` defines a property, raw values
otherwise. -/
def mpGet (env : Env) (w : MPValues) : Field → Except String (Option PVal)
  | Field.vlans => Except.ok ((mp_vlans w).map PVal.strList)
  | Field.mgmt_network => Except.ok (w.mgmt_network.map PVal.str)
  | Field.mgmt_address => (mp_mgmt_address env w).map (fun o => o.map PVal.str)
  | Field.initial_image => (mp_initial_image env w).map (fun o => o.map PVal.str)
  | Field.initial_hotfix => (mp_initial_hotfix env w).map (fun o => o.map PVal.str)
  | Field.mgmt_route => (mp_mgmt_route env w).map (fun o => o.map PVal.str)
  | Field.state => Except.ok ((mp_state w).map PVal.str)
  | Field.cores_per_slot => Except.ok (w.cores_per_slot.map PVal.int)
  | Field.number_of_slots => Except.ok (w.number_of_slots.map PVal.int)
  | Field.min_number_of_slots => Except.ok (w.min_number_of_slots.map PVal.int)
  | Field.allowed_slots => Except.ok ((mp_allowed_slots w).map PVal.intList)

/-- `getattr(self.have, param)` for the observed-state side: raw values
(no property overrides on `ApiParameters`). -/
def apiGet (h : ApiValues) : Field → Option PVal
  | Field.vlans => h.vlans.map PVal.strList
  | Field.mgmt_network => h.mgmt_network.map PVal.str
  | Field.mgmt_address => h.mgmt_address.map PVal.str
  | Field.initial_image => h.initial_image.map PVal.str
  | Field.initial_hotfix => h.initial_hotfix.map PVal.str
  | Field.mgmt_route => h.mgmt_route.map PVal.str
  | Field.state => h.state.map PVal.str
  | Field.cores_per_slot => h.cores_per_slot.map PVal.int
  | Field.number_of_slots => h.number_of_slots.map PVal.int
  | Field.min_number_of_slots => h.min_number_of_slots.map PVal.int
  | Field.allowed_slots => h.allowed_slots.map PVal.intList

/-- `Difference.__default` (bigip_vcmp_guest.py 446-453): return the
desired value when it differs from the observed one, else `None`
(comparing `None` to a set value returns the Python `None`, which the
caller treats as "no change"). -/
def diffDefault {α : Type} [DecidableEq α] (w h : Option α) : Option α :=
  if w ≠ h then w else none

/-- Python `s.split(sep)` on a character separator. -/
def pySplitChar (sep : Char) : List Char → List (List Char)
  | [] => [[]]
  | c :: rest =>
    match pySplitChar sep rest with
    | [] => [[]]
    | hd :: tl => if c = sep then [] :: hd :: tl else (c :: hd) :: tl

/-- `Difference.mgmt_address` (bigip_vcmp_guest.py 455-463): evaluate
`want.mgmt_tuple` (splitting the raw value on `/`); on a missing raw
value `mgmt_tuple` raises `AttributeError`, which `compare` catches,
falling back to `__default` on the (then `None`) property value.  With
exactly two parts the subnet is present and the normalized desired
address is compared to the observed raw value; with fewer parts the
subnet is missing and the comparison raises; with more parts
`mgmt_tuple` itself raises. -/
def cmpMgmtAddress (env : Env) (w : MPValues) (h : ApiValues) : Except String (Option PVal) :=
  match w.mgmt_address with
  | none => Except.ok ((diffDefault (none : Option String) h.mgmt_address).map PVal.str)
  | some raw =>
    let parts := pySplitChar '/' raw.toList
    if parts.length = 2 then
      match mp_mgmt_address env w with
      | Except.error e => Except.error e
      | Except.ok a => Except.ok ((if a ≠ h.mgmt_address then a else none).map PVal.str)
    else if parts.length < 2 then
      Except.error "A subnet must be specified when changing the mgmt_address."
    else Except.error "The provided mgmt_address is malformed."

/-- Python `set(a) == set(b)` on integer lists. -/
def pySetEqInt (a b : List Int) : Bool :=
  a.all (fun x => b.contains x) && b.all (fun x => a.contains x)

/-- `Difference.allowed_slots` (bigip_vcmp_guest.py 465-472): `None`
when the desired list is absent; the desired (sorted) list when the
observed list is absent or the two differ as unordered sets. -/
def cmpAllowedSlots (w : MPValues) (h : ApiValues) : Option PVal :=
  match mp_allowed_slots w with
  | none => none
  | some ws =>
    match h.allowed_slots with
    | none => some (PVal.intList ws)
    | some hs => if pySetEqInt ws hs then none else some (PVal.intList ws)

/-- `Difference.compare` (bigip_vcmp_guest.py 439-444): use the
per-field override when one exists, else `__default`. -/
def vcmpCompare (env : Env) (w : MPValues) (h : ApiValues) : Field → Except String (Option PVal)
  | Field.mgmt_address => cmpMgmtAddress env w h
  | Field.allowed_slots => Except.ok (cmpAllowedSlots w h)
  | k =>
    match mpGet env w k with
    | Except.error e => Except.error e
    | Except.ok a => Except.ok (diffDefault a (apiGet h k))

/-- The loop body of `ModuleManager._update_changed_options`
(bigip_vcmp_guest.py 492-505): compare each updatable field in order,
collecting the non-`None` deltas (a raised comparison error
propagates). -/
def collectChanges (env : Env) (w : MPValues) (h : ApiValues) :
    List Field → Except String (List (Field × PVal))
  | [] => Except.ok []
  | k :: ks =>
    match vcmpCompare env w h k with
    | Except.error e => Except.error e
    | Except.ok none => collectChanges env w h ks
    | Except.ok (some v) =>
      match collectChanges env w h ks with
      | Except.error e => Except.error e
      | Except.ok rest => Except.ok ((k, v) :: rest)

/-- `ModuleManager._update_changed_options`: the change set and the
returned boolean (`True` iff the change set is non-empty). -/
def update_changed_options (env : Env) (w : MPValues) (h : ApiValues) :
    Except String (List (Field × PVal) × Bool) :=
  match collectChanges env w h updatables with
  | Except.error e => Except.error e
  | Except.ok changed =>
    if changed.isEmpty then Except.ok (changed, false) else Except.ok (changed, true)

/-- `ModuleManager.update` (bigip_vcmp_guest.py 551-567), restricted to
its changed-result: `False` when `should_update` is false (no device
call follows), `True` on every mutating path. -/
def vcmpUpdateChanged (env : Env) (w : MPValues) (h : ApiValues) : Except String Bool :=
  match update_changed_options env w h with
  | Except.error e => Except.error e
  | Except.ok (_, b) => if b = false then Except.ok false else Except.ok true

theorem diffDefault_ne_none_iff {α : Type} [DecidableEq α] (w h : Option α) :
    diffDefault w h ≠ none ↔ (w ≠ none ∧ w ≠ h) := by
  unfold diffDefault
  by_cases hc : w = h
  · simp [hc]
  · rw [if_pos hc]
    exact ⟨fun hw => ⟨hw, hc⟩, fun hp => hp.1⟩

theorem sort_perm_eq {α : Type} [LinearOrder α] {l1 l2 : List α} (h : l1.Perm l2) :
    l1.mergeSort (fun a b => decide (a ≤ b)) = l2.mergeSort (fun a b => decide (a ≤ b)) := by
  have htr : ∀ a b c : α, decide (a ≤ b) = true → decide (b ≤ c) = true →
      decide (a ≤ c) = true := by
    intro a b c hab hbc
    simp only [decide_eq_true_eq] at *
    exact le_trans hab hbc
  have hto : ∀ a b : α, (decide (a ≤ b) || decide (b ≤ a)) = true := by
    intro a b
    simpa using le_total a b
  have hs1 := List.sorted_mergeSort htr hto l1
  have hs2 := List.sorted_mergeSort htr hto l2
  apply List.eq_of_perm_of_sorted (r := fun a b : α => a ≤ b)
  · exact ((List.mergeSort_perm l1 _).trans h).trans (List.mergeSort_perm l2 _).symm
  · exact List.Pairwise.imp (fun hab => by simpa using hab) hs1
  · exact List.Pairwise.imp (fun hab => by simpa using hab) hs2

/-- C1: for every (desired, observed) pair and every updatable field
without a per-field override, `compare` falls through to `__default`,
which includes the field in the change set iff the desired (property)
value is non-null and differs from the observed value; consequently when
every comparison reports no change, `_update_changed_options` returns
`False` and `update` reports `changed = False`. -/
theorem c1_default_diff_rule (env : Env) (w : MPValues) (h : ApiValues) :
    (∀ k ∈ updatables, hasOverride k = false →
      ∀ a, mpGet env w k = Except.ok a →
        vcmpCompare env w h k = Except.ok (diffDefault a (apiGet h k)) ∧
          (diffDefault a (apiGet h k) ≠ none ↔ a ≠ none ∧ a ≠ apiGet h k)) ∧
    ((∀ k ∈ updatables, vcmpCompare env w h k = Except.ok none) →
      update_changed_options env w h = Except.ok ([], false) ∧
        vcmpUpdateChanged env w h = Except.ok false) := by
  constructor
  · intro k hk hov a ha
    refine ⟨?_, diffDefault_ne_none_iff a (apiGet h k)⟩
    cases k <;> simp [hasOverride] at hov ⊢ <;> simp [vcmpCompare, ha]
  · intro hall
    have h1 := hall Field.vlans (by simp [updatables])
    have h2 := hall Field.mgmt_network (by simp [updatables])
    have h3 := hall Field.mgmt_address (by simp [updatables])
    have h4 := hall Field.initial_image (by simp [updatables])
    have h5 := hall Field.initial_hotfix (by simp [updatables])
    have h6 := hall Field.mgmt_route (by simp [updatables])
    have h7 := hall Field.state (by simp [updatables])
    have h8 := hall Field.cores_per_slot (by simp [updatables])
    have h9 := hall Field.number_of_slots (by simp [updatables])
    have h10 := hall Field.min_number_of_slots (by simp [updatables])
    have h11 := hall Field.allowed_slots (by simp [updatables])
    constructor
    · simp [update_changed_options, collectChanges, updatables,
        h1, h2, h3, h4, h5, h6, h7, h8, h9, h10, h11]
    · simp [vcmpUpdateChanged, update_changed_options, collectChanges, updatables,
        h1, h2, h3, h4, h5, h6, h7, h8, h9, h10, h11]

/-- A trivial environment for concrete evaluation: no valid addresses,
no images on the device. -/
def env0 : Env :=
  { ipw := fun _ => none
    validIp := fun _ => false
    imageExists := fun _ => Except.ok false
    hotfixExists := fun _ => Except.ok false }

/-- Desired state with every field unset. -/
def w0 : MPValues :=
  { partition := "Common", vlans := none, mgmt_network := none, mgmt_address := none
    initial_image := none, initial_hotfix := none, mgmt_route := none, state := none
    cores_per_slot := none, number_of_slots := none, min_number_of_slots := none
    allowed_slots := none }

/-- Observed state with every field unset. -/
def h0 : ApiValues :=
  { vlans := none, mgmt_network := none, mgmt_address := none
    initial_image := none, initial_hotfix := none, mgmt_route := none, state := none
    cores_per_slot := none, number_of_slots := none, min_number_of_slots := none
    allowed_slots := none }

/-- C1 witness: on a pair with no differing fields the change set is
empty and the reported outcome is `False`. -/
theorem c1_witness :
    update_changed_options env0 w0 h0 = Except.ok ([], false) ∧
      vcmpUpdateChanged env0 w0 h0 = Except.ok false :=
  (c1_default_diff_rule env0 w0 h0).2 (by decide)

/-- C7: permuting the user-supplied `vlans` and `allowed_slots` lists
leaves the computed change set (and the returned boolean) identical:
`vlans` are fully qualified and sorted by the parameter property, and
`allowed_slots` are sorted and compared as unordered sets. -/
theorem c7_list_order_insensitive (env : Env) (w : MPValues) (h : ApiValues)
    (v1 v2 : List String) (s1 s2 : List Int) (hv : v1.Perm v2) (hs : s1.Perm s2) :
    update_changed_options env { w with vlans := some v1, allowed_slots := some s1 } h
      = update_changed_options env { w with vlans := some v2, allowed_slots := some s2 } h := by
  have hvl : mp_vlans { w with vlans := some v1, allowed_slots := some s1 }
      = mp_vlans { w with vlans := some v2, allowed_slots := some s2 } := by
    simp only [mp_vlans, Option.map_some]
    exact congrArg some (sort_perm_eq (hv.map (fq_name w.partition)))
  have hsl : mp_allowed_slots { w with vlans := some v1, allowed_slots := some s1 }
      = mp_allowed_slots { w with vlans := some v2, allowed_slots := some s2 } := by
    simp only [mp_allowed_slots, Option.map_some]
    exact congrArg some (sort_perm_eq hs)
  have hcmp : ∀ k, vcmpCompare env { w with vlans := some v1, allowed_slots := some s1 } h k
      = vcmpCompare env { w with vlans := some v2, allowed_slots := some s2 } h k := by
    intro k
    cases k <;>
      simp [vcmpCompare, mpGet, cmpMgmtAddress, cmpAllowedSlots, mp_mgmt_address,
        mp_mgmt_route, mp_initial_image, mp_initial_hotfix, mp_state, hvl, hsl]
  have hcol : ∀ ks, collectChanges env { w with vlans := some v1, allowed_slots := some s1 } h ks
      = collectChanges env { w with vlans := some v2, allowed_slots := some s2 } h ks := by
    intro ks
    induction ks with
    | nil => rfl
    | cons k ks ih => simp [collectChanges, hcmp k, ih]
  simp [update_changed_options, hcol]

/-- C7 witness: two permutations of concrete `vlans` and `allowed_slots`
lists produce the same change set. -/
theorem c7_witness :
    update_changed_options env0 { w0 with vlans := some ["b", "a"], allowed_slots := some [2, 1] } h0
      = update_changed_options env0 { w0 with vlans := some ["a", "b"], allowed_slots := some [1, 2] } h0 :=
  c7_list_order_insensitive env0 w0 h0 _ _ _ _ (by decide) (by decide)

end Vcmp

namespace Bigiq

/-- The updatable fields of `Parameters.updatables`
(bigiq_device_discovery.py 346-351). -/
inductive BqField where
  | modules
  | access_group_name
  | apm_properties
  | module_list
deriving DecidableEq, Repr

/-- The APM property dict built by `ModuleParameters.apm_properties`
(bigiq_device_discovery.py 472-482), with its three fixed keys
`cm:access:conflict-resolution`, `cm:access:access-group-name` and
`cm:access:import-shared`. -/
structure ApmProps where
  conflictResolution : Option String
  accessGroupName : Option String
  importShared : Option Bool
deriving DecidableEq, Repr

/-- A changed-dict value in bigiq_device_discovery. -/
inductive BqVal where
  | str (s : String)
  | strList (l : List String)
  | apm (p : ApmProps)
deriving DecidableEq, Repr

/-- The raw `_values` of `ModuleParameters` relevant to the claims.
`device_conflict_policy` and `force` carry argument-spec defaults
(`use_bigiq`, `no`), so they are always set.  `access_group_first_device`
and `stats_enabled` stand for the already-flattened boolean properties
(`flatten_boolean` lives in `module_utils`, outside `src/`). -/
structure BqValues where
  modules : Option (List String)
  access_group_name : Option String
  access_conflict_policy : Option String
  device_conflict_policy : String
  access_group_first_device : Option Bool
  stats_enabled : Option Bool
  force : Bool
deriving DecidableEq, Repr

/-- One value of the device-reported `properties` dict: the
`discovered` / `imported` flags and, when present, the
`cm:access:access-group-name` entry. -/
structure ApiEntry where
  discovered : Bool
  imported : Bool
  accessGroupName : Option String
deriving DecidableEq, Repr

/-- `ModuleParameters.access_conflict_policy`
(bigiq_device_discovery.py 436-440): `None` when the raw
`access_conflict_policy` is unset; otherwise the upper-cased
`device_conflict_policy` raw value (the source reads
`self._values['device_conflict_policy']`, not the access one). -/
def mp_access_conflict_policy (v : BqValues) : Option String :=
  match v.access_conflict_policy with
  | none => none
  | some _ => some v.device_conflict_policy.toUpper

/-- `ModuleParameters.device_conflict_policy`
(bigiq_device_discovery.py 427-428). -/
def mp_device_conflict_policy (v : BqValues) : String :=
  v.device_conflict_policy.toUpper

/-- Python truthiness of an optional string (`None` and `''` are falsy). -/
def pyTruthyStrOpt : Option String → Bool
  | none => false
  | some s => !s.isEmpty

/-- `ModuleParameters.module_map` (bigiq_device_discovery.py 389-394). -/
def moduleMapWant : List (String × String) :=
  [("ltm", "adc_core"), ("afm", "firewall"), ("websafe", "fps"), ("apm", "access")]

/-- `ModuleParameters.modules` (bigiq_device_discovery.py 443-470):
validation of the module list, then translation through `module_map`. -/
def mp_modules (v : BqValues) : Except String (Option (List String)) :=
  match v.modules with
  | none => Except.ok none
  | some ms =>
    if ¬ ms.contains "security_shared" ∧ ms.contains "afm" then
      Except.error "Module 'shared_security' required for 'afm' module."
    else if ¬ ms.contains "security_shared" ∧ ms.contains "asm" then
      Except.error "Module 'shared_security' required for 'asm' module."
    else if ¬ ms.contains "ltm" then
      Except.error "LTM module must be specified for device discovery and import."
    else if ms.contains "apm" ∧ (¬ pyTruthyStrOpt v.access_group_name = true
        ∨ ¬ pyTruthyStrOpt (mp_access_conflict_policy v) = true) then
      Except.error "When importing APM 'access_group_name' and 'access_conflict_policy' must be specified."
    else Except.ok (some (ms.map (fun m => (moduleMapWant.lookup m).getD m)))

/-- `ModuleParameters.apm_properties` (bigiq_device_discovery.py
472-482): the fixed three-key dict when `apm` is among the raw modules,
else `None`. -/
def mp_apm_properties (v : BqValues) : Option ApmProps :=
  match v.modules with
  | none => none
  | some ms =>
    if ms.contains "apm" then
      some { conflictResolution := mp_access_conflict_policy v
             accessGroupName := v.access_group_name
             importShared := v.access_group_first_device }
    else none

/-- `ApiParameters.module_map` (bigiq_device_discovery.py 355-363). -/
def apiModuleMap : List (String × String) :=
  [("cm-security-shared-allSharedDevices", "security_shared"),
   ("cm-asm-allAsmDevices", "asm"),
   ("cm-firewall-allFirewallDevices", "firewall"),
   ("cm-websafe-allFpsDevices", "fps"),
   ("cm-dns-allBigIpDevices", "dns"),
   ("cm-adccore-allbigipDevices", "adc_core"),
   ("cm-access-allBigIpDevices", "access")]

/-- `ApiParameters.modules` (bigiq_device_discovery.py 365-375). -/
def api_modules (props : Option (List (String × ApiEntry))) : Option (List String) :=
  props.map (fun l => l.filterMap (fun kv =>
    match apiModuleMap.lookup kv.1 with
    | some m => if kv.2.discovered ∧ kv.2.imported then some m else none
    | none => none))

/-- `ApiParameters.access_group_name` (bigiq_device_discovery.py
377-385): the `cm:access:access-group-name` entry of the first
properties value carrying one, else `None`. -/
def api_access_group_name (props : Option (List (String × ApiEntry))) : Option String :=
  match props with
  | none => none
  | some l =>
    match l.find? (fun kv => kv.2.accessGroupName.isSome) with
    | some kv => kv.2.accessGroupName
    | none => none

/-- Python `set(a) == set(b)` on string lists. -/
def pySetEqStr (a b : List String) : Bool :=
  a.all (fun x => b.contains x) && b.all (fun x => a.contains x)

/-- `Difference.modules` (bigiq_device_discovery.py 599-608). -/
def bq_diff_modules (wm hm : Option (List String)) : Option (List String) :=
  match wm with
  | none => none
  | some ws =>
    match hm with
    | none => some ws
    | some hs =>
      if ws.all (fun x => hs.contains x) then none
      else if ¬ pySetEqStr ws hs = true then some ws
      else none

/-- `Difference.compare` for bigiq_device_discovery: overrides for
`modules`, `access_group_name` (raising when desired and observed
differ, bigiq_device_discovery.py 610-615) and `apm_properties` (always
`None`, 617-620); `module_list` falls to `__default` where both sides
are raw `None`. -/
def bqCompare (v : BqValues) (hp : Option (List (String × ApiEntry))) :
    BqField → Except String (Option BqVal)
  | BqField.modules =>
    match mp_modules v with
    | Except.error e => Except.error e
    | Except.ok wm => Except.ok ((bq_diff_modules wm (api_modules hp)).map BqVal.strList)
  | BqField.access_group_name =>
    if v.access_group_name ≠ api_access_group_name hp then
      Except.error "Access group name cannot be modified once it is set."
    else Except.ok none
  | BqField.apm_properties => Except.ok none
  | BqField.module_list => Except.ok none

def bqUpdatables : List BqField :=
  [BqField.modules, BqField.access_group_name, BqField.apm_properties, BqField.module_list]

/-- The comparison loop of `ModuleManager._update_changed_options`
(bigiq_device_discovery.py 642-659). -/
def bqCollect (v : BqValues) (hp : Option (List (String × ApiEntry))) :
    List BqField → Except String (List (BqField × BqVal))
  | [] => Except.ok []
  | k :: ks =>
    match bqCompare v hp k with
    | Except.error e => Except.error e
    | Except.ok none => bqCollect v hp ks
    | Except.ok (some x) =>
      match bqCollect v hp ks with
      | Except.error e => Except.error e
      | Except.ok rest => Except.ok ((k, x) :: rest)

/-- `ModuleManager._update_changed_options`: on a non-empty change set
the `apm_properties` entry is added unconditionally (possibly `None`)
and `True` is returned, else `False`. -/
def bq_update_changed_options (v : BqValues) (hp : Option (List (String × ApiEntry))) :
    Except String (List (BqField × Option BqVal) × Bool) :=
  match bqCollect v hp bqUpdatables with
  | Except.error e => Except.error e
  | Except.ok changed =>
    if changed.isEmpty then
      Except.ok (changed.map (fun kv => (kv.1, some kv.2)), false)
    else
      Except.ok (changed.map (fun kv => (kv.1, some kv.2))
        ++ [(BqField.apm_properties, (mp_apm_properties v).map BqVal.apm)], true)

/-- The mutating calls `ModuleManager.update` can issue. -/
inductive BqCall where
  | discover
  | importModules
  | enableStats
deriving DecidableEq, Repr

/-- `ModuleManager.update` (bigiq_device_discovery.py 712-724), after
`self.have` has been read: evaluate `should_update` (its raised errors
propagate before any call), return `False` when nothing changed and
`force` is unset, short-circuit in check mode, otherwise issue
discovery, import, and (when statistics are enabled) stats enablement. -/
def bq_update (v : BqValues) (hp : Option (List (String × ApiEntry))) (checkMode : Bool) :
    Except String (Bool × List BqCall) :=
  match bq_update_changed_options v hp with
  | Except.error e => Except.error e
  | Except.ok (_, su) =>
    if ¬ su = true ∧ ¬ v.force = true then Except.ok (false, [])
    else if checkMode then Except.ok (true, [])
    else Except.ok (true, [BqCall.discover, BqCall.importModules]
      ++ (if v.stats_enabled = some true then [BqCall.enableStats] else []))

/-- C5: when the desired `access_group_name` differs from the observed
one (and the `modules` comparison itself does not raise first), an
update run fails with the immutable-field error, and in particular no
mutating call (discovery, import, stats enablement) is issued. -/
theorem c5_immutable_access_group (v : BqValues) (hp : Option (List (String × ApiEntry)))
    (checkMode : Bool) (hmods : ∃ m, mp_modules v = Except.ok m)
    (hdiff : v.access_group_name ≠ api_access_group_name hp) :
    bq_update v hp checkMode = Except.error "Access group name cannot be modified once it is set." ∧
      ∀ r, bq_update v hp checkMode ≠ Except.ok r := by
  obtain ⟨m, hm⟩ := hmods
  have hmain : bq_update v hp checkMode
      = Except.error "Access group name cannot be modified once it is set." := by
    rcases hdm : bq_diff_modules m (api_modules hp) with _ | dm <;>
      simp [bq_update, bq_update_changed_options, bqCollect, bqUpdatables, bqCompare,
        hm, hdm, hdiff]
  refine ⟨hmain, ?_⟩
  intro r hr
  rw [hmain] at hr
  cases hr

/-- Desired state for the C5 witness: no modules requested, an
access-group name set. -/
def bqv1 : BqValues :=
  { modules := none, access_group_name := some "grp", access_conflict_policy := none
    device_conflict_policy := "use_bigiq", access_group_first_device := none
    stats_enabled := none, force := false }

/-- C5 witness: with an observed state carrying no access-group name,
the update run raises the immutable-field error. -/
theorem c5_witness :
    bq_update bqv1 none false
      = Except.error "Access group name cannot be modified once it is set." :=
  (c5_immutable_access_group bqv1 none false ⟨none, by decide⟩ (by decide)).1

/-- C10: when the raw `access_conflict_policy` is set, the canonical
`access_conflict_policy` property equals the upper-cased
`device_conflict_policy` (the property reads the wrong key), and hence
the `cm:access:conflict-resolution` entry of `apm_properties` carries
the device conflict policy. -/
theorem c10_access_conflict_from_device (v : BqValues)
    (h : v.access_conflict_policy ≠ none) :
    mp_access_conflict_policy v = some v.device_conflict_policy.toUpper ∧
      (∀ ms, v.modules = some ms → ms.contains "apm" = true →
        (mp_apm_properties v).map (fun p => p.conflictResolution)
          = some (some v.device_conflict_policy.toUpper)) := by
  have h1 : mp_access_conflict_policy v = some v.device_conflict_policy.toUpper := by
    unfold mp_access_conflict_policy
    cases hv : v.access_conflict_policy with
    | none => exact absurd hv h
    | some s => rfl
  refine ⟨h1, ?_⟩
  intro ms hms hc
  simp only [mp_apm_properties, hms]
  rw [if_pos hc]
  simp [h1]

/-- Desired state for the C10 witness: both conflict-policy inputs set,
with different values. -/
def bqv2 : BqValues :=
  { modules := some ["ltm", "apm"], access_group_name := some "grp"
    access_conflict_policy := some "use_bigip", device_conflict_policy := "use_bigiq"
    access_group_first_device := some true, stats_enabled := none, force := false }

/-- C10 witness: with `access_conflict_policy = use_bigip` and
`device_conflict_policy = use_bigiq`, the canonical value and the
`cm:access:conflict-resolution` entry are the upper-cased device
policy. -/
theorem c10_witness :
    mp_access_conflict_policy bqv2 = some ("use_bigiq".toUpper) ∧
      (mp_apm_properties bqv2).map (fun p => p.conflictResolution)
        = some (some ("use_bigiq".toUpper)) :=
  ⟨(c10_access_conflict_from_device bqv2 (by decide)).1,
    (c10_access_conflict_from_device bqv2 (by decide)).2 ["ltm", "apm"] rfl (by decide)⟩

end Bigiq

namespace Ucs

/-- A task-result poll response: HTTP code and the `_taskState` field. -/
structure UcsResponse where
  code : Nat
  taskState : String
deriving DecidableEq, Repr

def timeoutRangeMsg : String := "Timeout value must be between 150 and 1800 seconds."

def timeoutLoopMsg : String :=
  "Module timeout reached, state change is unknown, please increase the timeout parameter for long lived actions."

/-- `ModuleParameters.timeout` (bigip_ucs_fetch.py 299-310): reject a
timeout outside 150..1800 seconds, else return the poll delay
`timeout / 100` (an exact rational standing for the Python float) and
the poll count `100`. -/
def mp_timeout (t : Int) : Except String (Rat × Nat) :=
  if t < 150 ∨ t > 1800 then Except.error timeoutRangeMsg
  else Except.ok ((t : Rat) / 100, 100)

def is2xx (r : UcsResponse) : Bool :=
  r.code == 200 || r.code == 201 || r.code == 202

/-- The poll loop of `ModuleManager.async_wait` (bigip_ucs_fetch.py
480-491): on a 2xx response, a `FAILED` state raises and a `COMPLETED`
state returns success; anything else (including non-2xx codes) sleeps
and polls again, and an exhausted budget raises the timeout error. -/
def async_wait_loop (resp : Nat → UcsResponse) : Nat → Nat → Except String Bool
  | _, 0 => Except.error timeoutLoopMsg
  | i, fuel + 1 =>
    let r := resp i
    if is2xx r then
      if r.taskState = "FAILED" then Except.error "Task failed unexpectedly."
      else if r.taskState = "COMPLETED" then Except.ok true
      else async_wait_loop resp (i + 1) fuel
    else async_wait_loop resp (i + 1) fuel

/-- `ModuleManager.async_wait` (bigip_ucs_fetch.py 476-491):
`check_task_exists_on_device` raises when the task is unknown, then the
`timeout` property validates, then the loop polls at most 100 times. -/
def async_wait (taskExists : Bool) (task : String) (resp : Nat → UcsResponse) (t : Int) :
    Except String Bool :=
  if ¬ taskExists = true then
    Except.error ("The task with the given task_id: " ++ task ++ " does not exist.")
  else
    match mp_timeout t with
    | Except.error e => Except.error e
    | Except.ok (_, period) => async_wait_loop resp 0 period

def isTerminal (r : UcsResponse) : Bool :=
  is2xx r && (r.taskState == "FAILED" || r.taskState == "COMPLETED")

def isCompleted (r : UcsResponse) : Bool :=
  is2xx r && r.taskState == "COMPLETED"

def isFailed (r : UcsResponse) : Bool :=
  is2xx r && r.taskState == "FAILED"

theorem notTerminal_states (r : UcsResponse) (h : isTerminal r = false)
    (hx : is2xx r = true) :
    ¬ r.taskState = "FAILED" ∧ ¬ r.taskState = "COMPLETED" := by
  simp [isTerminal, hx, beq_iff_eq] at h
  exact h

theorem loop_step_not_terminal (resp : Nat → UcsResponse) (i fuel : Nat)
    (h0 : isTerminal (resp i) = false) :
    async_wait_loop resp i (fuel + 1) = async_wait_loop resp (i + 1) fuel := by
  conv_lhs => unfold async_wait_loop
  by_cases hx : is2xx (resp i) = true
  · obtain ⟨hf, hc⟩ := notTerminal_states _ h0 hx
    rw [if_pos hx, if_neg hf, if_neg hc]
  · rw [if_neg hx]

theorem loop_timeout (resp : Nat → UcsResponse) :
    ∀ fuel i, (∀ j, j < fuel → isTerminal (resp (i + j)) = false) →
      async_wait_loop resp i fuel = Except.error timeoutLoopMsg := by
  intro fuel
  induction fuel with
  | zero => intro i _; rfl
  | succ f ih =>
    intro i h
    have h0 : isTerminal (resp i) = false := by
      have := h 0 (Nat.succ_pos f)
      simpa using this
    have hrest : ∀ j, j < f → isTerminal (resp (i + 1 + j)) = false := by
      intro j hj
      have := h (j + 1) (by omega)
      have harith : i + (j + 1) = i + 1 + j := by omega
      rwa [harith] at this
    rw [loop_step_not_terminal resp i f h0]
    exact ih (i + 1) hrest

theorem loop_completed (resp : Nat → UcsResponse) :
    ∀ k fuel i, k < fuel → (∀ j, j < k → isTerminal (resp (i + j)) = false) →
      isCompleted (resp (i + k)) = true → async_wait_loop resp i fuel = Except.ok true := by
  intro k
  induction k with
  | zero =>
    intro fuel i hk _ hdone
    obtain ⟨f, rfl⟩ : ∃ f, fuel = f + 1 := ⟨fuel - 1, by omega⟩
    simp only [Nat.add_zero] at hdone
    simp only [isCompleted, Bool.and_eq_true, beq_iff_eq] at hdone
    unfold async_wait_loop
    rw [if_pos hdone.1, if_neg (by simp [hdone.2]), if_pos hdone.2]
  | succ n ih =>
    intro fuel i hk hpre hdone
    obtain ⟨f, rfl⟩ : ∃ f, fuel = f + 1 := ⟨fuel - 1, by omega⟩
    have h0 : isTerminal (resp i) = false := by
      have := hpre 0 (Nat.succ_pos n)
      simpa using this
    have hrest : ∀ j, j < n → isTerminal (resp (i + 1 + j)) = false := by
      intro j hj
      have := hpre (j + 1) (by omega)
      have harith : i + (j + 1) = i + 1 + j := by omega
      rwa [harith] at this
    have hdone' : isCompleted (resp (i + 1 + n)) = true := by
      have harith : i + (n + 1) = i + 1 + n := by omega
      rwa [harith] at hdone
    rw [loop_step_not_terminal resp i f h0]
    exact ih f (i + 1) (by omega) hrest hdone'

theorem loop_failed (resp : Nat → UcsResponse) :
    ∀ k fuel i, k < fuel → (∀ j, j < k → isTerminal (resp (i + j)) = false) →
      isFailed (resp (i + k)) = true →
      async_wait_loop resp i fuel = Except.error "Task failed unexpectedly." := by
  intro k
  induction k with
  | zero =>
    intro fuel i hk _ hdone
    obtain ⟨f, rfl⟩ : ∃ f, fuel = f + 1 := ⟨fuel - 1, by omega⟩
    simp only [Nat.add_zero] at hdone
    simp only [isFailed, Bool.and_eq_true, beq_iff_eq] at hdone
    unfold async_wait_loop
    rw [if_pos hdone.1, if_pos hdone.2]
  | succ n ih =>
    intro fuel i hk hpre hdone
    obtain ⟨f, rfl⟩ : ∃ f, fuel = f + 1 := ⟨fuel - 1, by omega⟩
    have h0 : isTerminal (resp i) = false := by
      have := hpre 0 (Nat.succ_pos n)
      simpa using this
    have hrest : ∀ j, j < n → isTerminal (resp (i + 1 + j)) = false := by
      intro j hj
      have := hpre (j + 1) (by omega)
      have harith : i + (j + 1) = i + 1 + j := by omega
      rwa [harith] at this
    have hdone' : isFailed (resp (i + 1 + n)) = true := by
      have harith : i + (n + 1) = i + 1 + n := by omega
      rwa [harith] at hdone
    rw [loop_step_not_terminal resp i f h0]
    exact ih f (i + 1) (by omega) hrest hdone'

/-- C4: the timeout parameter is accepted iff it lies in 150..1800
(inclusive), otherwise validation raises before any poll; the poller
makes at most 100 polls at interval `timeout / 100`, returns success at
the first `COMPLETED` response, raises immediately at a `FAILED`
response, and raises the timeout error only once the 100-poll budget is
exhausted. -/
theorem c4_task_poller (t : Int) (task : String) (resp : Nat → UcsResponse) :
    (mp_timeout t = Except.ok ((t : Rat) / 100, 100) ↔ (150 ≤ t ∧ t ≤ 1800)) ∧
      (¬ (150 ≤ t ∧ t ≤ 1800) →
        async_wait true task resp t = Except.error timeoutRangeMsg) ∧
      ((150 ≤ t ∧ t ≤ 1800) →
        ((∀ j, j < 100 → isTerminal (resp j) = false) →
            async_wait true task resp t = Except.error timeoutLoopMsg) ∧
          (∀ k, k < 100 → (∀ j, j < k → isTerminal (resp j) = false) →
            (isCompleted (resp k) = true → async_wait true task resp t = Except.ok true) ∧
              (isFailed (resp k) = true →
                async_wait true task resp t = Except.error "Task failed unexpectedly."))) := by
  have hval : ∀ h : 150 ≤ t ∧ t ≤ 1800, mp_timeout t = Except.ok ((t : Rat) / 100, 100) := by
    intro h
    unfold mp_timeout
    rw [if_neg (by omega)]
  refine ⟨⟨?_, hval⟩, ?_, ?_⟩
  · intro h
    unfold mp_timeout at h
    by_cases hc : t < 150 ∨ t > 1800
    · rw [if_pos hc] at h
      cases h
    · omega
  · intro h
    unfold async_wait mp_timeout
    rw [if_neg (by simp)]
    rw [if_pos (by omega)]
  · intro h
    have hok : async_wait true task resp t = async_wait_loop resp 0 100 := by
      unfold async_wait
      rw [if_neg (by simp), hval h]
    constructor
    · intro hall
      rw [hok]
      apply loop_timeout resp 100 0
      intro j hj
      simpa using hall j hj
    · intro k hk hpre
      constructor
      · intro hdone
        rw [hok]
        apply loop_completed resp k 100 0 hk
        · intro j hj
          simpa using hpre j hj
        · simpa using hdone
      · intro hdone
        rw [hok]
        apply loop_failed resp k 100 0 hk
        · intro j hj
          simpa using hpre j hj
        · simpa using hdone

/-- Poll responses for the C4 witness: `STARTED` once, then `COMPLETED`. -/
def resp0 : Nat → UcsResponse :=
  fun n => if n = 0 then ⟨200, "STARTED"⟩ else ⟨200, "COMPLETED"⟩

/-- C4 witness: a valid timeout and a status sequence reaching
`COMPLETED` at the second poll yield success. -/
theorem c4_witness : async_wait true "1234" resp0 300 = Except.ok true :=
  (((c4_task_poller 300 "1234" resp0).2.2 (by norm_num)).2 1 (by norm_num)
    (by decide)).1 (by decide)

/-- The desired-state inputs of bigip_ucs_fetch that select the
`present` branch. -/
structure UcsWant where
  task_id : Option String
  only_create_file : Bool
deriving DecidableEq, Repr

/-- The top-level operations `ModuleManager.present` can invoke. -/
inductive UcsAction where
  | checkTask
  | update
  | create
deriving DecidableEq, Repr

/-- `ModuleManager.present` (bigip_ucs_fetch.py 354-361): poll an
existing task, or (when the archive exists on the device) update unless
`only_create_file` suppresses it, or create. -/
def present_actions (w : UcsWant) (devExists : Bool) : List UcsAction :=
  if w.task_id.isSome then [UcsAction.checkTask]
  else if devExists then (if ¬ w.only_create_file = true then [UcsAction.update] else [])
  else [UcsAction.create]

/-- The result record of `ModuleManager.exec_module`. -/
structure UcsResult where
  changed : Bool
  actions : List UcsAction
deriving DecidableEq, Repr

/-- `ModuleManager.exec_module` (bigip_ucs_fetch.py 341-352): run
`present` and then set `changed=True` unconditionally in the result. -/
def exec_module (w : UcsWant) (devExists : Bool) : UcsResult :=
  { changed := true, actions := present_actions w devExists }

/-- C9: every successful `exec_module` run reports `changed = true` —
including the run where the archive already exists and
`only_create_file` is set, in which `present` performs no action at
all. -/
theorem c9_always_changed (w : UcsWant) (devExists : Bool) :
    (exec_module w devExists).changed = true ∧
      (w.task_id = none → devExists = true → w.only_create_file = true →
        present_actions w devExists = []) := by
  refine ⟨rfl, ?_⟩
  intro h1 h2 h3
  simp [present_actions, h1, h2, h3]

/-- C9 witness: with no pending task, an existing archive on the device
and `only_create_file` set, no action is performed, yet `changed` is
reported `true`. -/
theorem c9_witness :
    (exec_module ⟨none, true⟩ true).changed = true ∧
      present_actions ⟨none, true⟩ true = [] :=
  ⟨(c9_always_changed ⟨none, true⟩ true).1,
    (c9_always_changed ⟨none, true⟩ true).2 rfl rfl rfl⟩

end Ucs
